import Mathlib

/-!
Verification of the synthetic-data-generator repository.

This file shallowly embeds the layout-composition, coordinate-conversion and
ground-truth-extraction logic of the repository source files
(`frankensteinv2.py`, `frankenstein.py`, `epf_k_form_pillow.py`,
`epf_k_form_synth.py`, `epf_k_task1_chrome.py`) as executable Lean
definitions, and proves or refutes the specification claims about them.

The unseeded global `random` module of Python is modelled as an explicit ambient
stream of natural numbers (`Rng`): each call to `random.randint` or
`random.choice` consumes one value from the stream.  Machine floats are
modelled as `ℚ` (all the conversion arithmetic in the sources is exact at
these magnitudes apart from the final 2-decimal rounding, which is modelled
explicitly).
-/

namespace SynthGen

/-- Ambient global random stream: the source scripts draw from the global Python
`random` module, which is never seeded from the configuration (no `--seed`
argument exists).  A draw consumes the head of the stream. -/
def Rng : Type := Nat → Nat

/-- Consume one raw value from the ambient stream. -/
def Rng.next (r : Rng) : Nat × Rng := (r 0, fun n => r (n + 1))

/-- The all-zero ambient stream (one concrete global-random state). -/
def rngZero : Rng := fun _ => 0

/-- The all-one ambient stream (another concrete global-random state). -/
def rngOne : Rng := fun _ => 1

/-- Model of Python `random.randint(a, b)`: an inclusive-range draw, realised
as `a + v % (b - a + 1)` for the next raw stream value `v`. -/
def randint (a b : Nat) (r : Rng) : Nat × Rng :=
  (a + (Rng.next r).1 % (b + 1 - a), (Rng.next r).2)

/-- Model of Python `random.choice(l)`: picks the element at index
`v % l.length` for the next raw stream value `v`. -/
def choice {α : Type} (l : List α) (d : α) (r : Rng) : α × Rng :=
  (l.getD ((Rng.next r).1 % l.length) d, (Rng.next r).2)

/-! ### The DOM produced by the HTML builders

`frankensteinv2.py` builds an HTML string; the label extractor then queries
the rendered DOM with `querySelectorAll on class layout-box`.  We embed the HTML as
an element tree carrying exactly the data the extractor reads: the class list
and the `data-label` / `data-id` attributes. -/

inductive Html : Type where
  | el (classes : List String) (dataLabel : Option String) (dataId : Option String)
       (children : List Html)
  | txt (s : String)

/-- Model of `document.querySelectorAll on class layout-box` followed by reading
`data-id` and `data-label` of each match: collects, in document order, the
`(data-id, data-label)` pair of every element whose class list contains
`"layout-box"`. -/
def labelsOf : Html → List (Option String × Option String)
  | .txt _ => []
  | .el classes dl di children =>
      (if "layout-box" ∈ classes then [(di, dl)] else []) ++ labelsList children
where
  /-- Collect over a child list, in order. -/
  labelsList : List Html → List (Option String × Option String)
  | [] => []
  | h :: t => labelsOf h ++ labelsList t

/-! ### Text generators (`frankensteinv2.py`, section 2) -/

def TEXT_SI : String := "ශ්‍රී ලංකා ප්‍රජාතාන්ත්‍රික සමාජවාදී ජනරජයේ ආණ්ඩුක්‍රම ව්‍යවස්ථාව"
def TEXT_TA : String := "இலங்கை சனநாயக சோசலிசக் குடியரசின் அரசியலமைப்பு"
def TEXT_EN : String := "The Constitution of the Democratic Socialist Republic of Sri Lanka"

/-- The repeated unit of `get_random_text`: `TEXT_SI + " " + TEXT_EN + " " +
TEXT_TA + ". "`. -/
def textBase : String := TEXT_SI ++ " " ++ TEXT_EN ++ " " ++ TEXT_TA ++ ". "

/-- Model of `get_random_text(length)`: the base string repeated `length`
times, then sliced to the first `randint(50, 200)` code points (Python slicing
is by code point, exactly as `String.take` is by `Char`). -/
def getRandomText (length : Nat) (r : Rng) : String × Rng :=
  let n := randint 50 200 r
  ((String.join (List.replicate length textBase)).take n.1, n.2)

/-! ### Atomic blocks (`frankensteinv2.py`, section 3)

Each generator produces exactly the element structure of its HTML snippet:
one root `div` with class `layout-box`, a `data-label` and a `data-id`, and
children that carry no `layout-box` class. -/

def blockHeader (idn : String) (r : Rng) : Html × Rng :=
  let n := randint 1 99 r
  (.el ["layout-box", "header"] (some "header") (some idn)
    [.el [] none none [.txt ("EPF FORM " ++ toString n.1)],
     .el [] none none [.txt "GOVERNMENT OF SRI LANKA"]], n.2)

def blockParagraph (idn : String) (r : Rng) : Html × Rng :=
  let m := randint 1 3 r
  let t := getRandomText m.1 m.2
  (.el ["layout-box", "paragraph"] (some "text_block") (some idn) [.txt t.1], t.2)

def blockInputField (idn : String) (r : Rng) : Html × Rng :=
  let lab := choice ["Full Name", "Address", "NIC Number", "Date of Birth"] "Full Name" r
  (.el ["layout-box", "input"] (some "key_value") (some idn)
    [.el [] none none [.txt (lab.1 ++ ":")],
     .el [] none none []], lab.2)

/-- One option line of the checkbox group: a flex `div` holding the box `div`
and the option text `Option X: ` followed by `get_random_text()[:20]`. -/
def checkboxItem (letter : String) (r : Rng) : Html × Rng :=
  let t := getRandomText 1 r
  (.el [] none none
    [.el [] none none [],
     .el [] none none [.txt ("Option " ++ letter ++ ": " ++ (t.1.take 20))]], t.2)

def blockCheckboxGroup (idn : String) (r : Rng) : Html × Rng :=
  let i0 := checkboxItem "A" r
  let i1 := checkboxItem "B" i0.2
  let i2 := checkboxItem "C" i1.2
  (.el ["layout-box", "checkbox_group"] (some "checkbox_group") (some idn)
    [i0.1, i1.1, i2.1], i2.2)

def blockSignature (idn : String) : Html :=
  .el ["layout-box", "signature"] (some "signature_area") (some idn)
    [.el [] none none [],
     .el [] none none [.txt "Signature of Applicant"]]

/-! ### Layout managers (`frankensteinv2.py`, section 4) -/

/-- The atomic generator pool `[block_paragraph, block_input_field,
block_checkbox_group, block_input_field]` (`block_input_field` appears twice,
weighting the draw). -/
def atomicGenerators : List (String → Rng → Html × Rng) :=
  [blockParagraph, blockInputField, blockCheckboxGroup, blockInputField]

def getRandomAtomicBlock (idBase : String) (r : Rng) : Html × Rng :=
  let g := choice atomicGenerators blockParagraph r
  let s := randint 100 999 g.2
  g.1 (idBase ++ "_" ++ toString s.1) s.2

/-- A row result: the produced element tree together with the number of atomic
blocks placed while building it (the count of block-generator invocations). -/
def rowFullWidth (idBase : String) (r : Rng) : Html × Nat × Rng :=
  let b := getRandomAtomicBlock idBase r
  (b.1, 1, b.2)

def rowTwoColumns (idBase : String) (r : Rng) : Html × Nat × Rng :=
  let left := getRandomAtomicBlock (idBase ++ "_L") r
  let right := getRandomAtomicBlock (idBase ++ "_R") left.2
  (.el [] none none
    [.el [] none none [left.1],
     .el [] none none [right.1]], 2, right.2)

def rowThreeColumns (idBase : String) (r : Rng) : Html × Nat × Rng :=
  let c1 := getRandomAtomicBlock (idBase ++ "_1") r
  let c2 := getRandomAtomicBlock (idBase ++ "_2") c1.2
  let c3 := getRandomAtomicBlock (idBase ++ "_3") c2.2
  (.el [] none none
    [.el [] none none [c1.1],
     .el [] none none [c2.1],
     .el [] none none [c3.1]], 3, c3.2)

/-- The weighted strategy table `[row_full_width, row_full_width,
row_two_columns, row_two_columns, row_three_columns]`: full-width and
two-column each appear twice, three-column once (weights 2 : 2 : 1). -/
def layoutStrategies : List (String → Rng → Html × Nat × Rng) :=
  [rowFullWidth, rowFullWidth, rowTwoColumns, rowTwoColumns, rowThreeColumns]

/-- The loop body of `build_random_page_html`: for `count` remaining rows,
starting at row index `i`, pick a strategy by `random.choice` and run it.
Returns the row elements, the total number of atomic blocks placed, and the
final stream. -/
def buildRows : Nat → Nat → Rng → List Html × Nat × Rng
  | 0, _, r => ([], 0, r)
  | count + 1, i, r =>
      let c := choice layoutStrategies rowFullWidth r
      let row := c.1 (toString i) c.2
      let rest := buildRows count (i + 1) row.2.2
      (row.1 :: rest.1, row.2.1 + rest.2.1, rest.2.2)

/-- Model of `build_random_page_html` (composition part): header first, then
`range(1, randint(6, 9))` rows (i.e. `randint(6, 9) - 1` of them), then the
signature block.  Returns the block list in document order, the number of
blocks placed during composition (block-generator invocations), and the final
stream. -/
def buildRandomPageBlocks (r : Rng) : List Html × Nat × Rng :=
  let hdr := blockHeader "0" r
  let n := randint 6 9 hdr.2
  let rows := buildRows (n.1 - 1) 1 n.2
  ((hdr.1 :: rows.1) ++ [blockSignature "99"], 1 + rows.2.1 + 1, rows.2.2)

/-- The `.page` container holding the composed blocks — this is the document
the extractor queries. -/
def buildRandomPage (r : Rng) : Html :=
  .el ["page"] none none (buildRandomPageBlocks r).1

/-- Model of the extraction step of `generate_dataset`: the per-element
records returned by the `page.evaluate` DOM query, one per `.layout-box`
element, in document order. -/
def extractLabels (doc : Html) : List (Option String × Option String) :=
  labelsOf doc

/-! ### Coordinate conversions -/

/-- `PX_TO_PT = 72 / 96` (`frankensteinv2.py`, `frankenstein.py`,
`epf_k_task1_chrome.py`). -/
def PX_TO_PT : ℚ := 72 / 96

/-- A raw bounding box `{x, y, width, height}` as returned by
`getBoundingClientRect`. -/
structure BBox where
  x : ℚ
  y : ℚ
  w : ℚ
  h : ℚ
  deriving DecidableEq

/-- Model of Python `round(q, 2)` used at serialization.  (Python rounds ties
to even, this model rounds ties up; both satisfy `|round2 q - q| ≤ 1/200`,
which is all the round-trip claims use.) -/
def round2 (q : ℚ) : ℚ := (round (q * 100) : ℚ) / 100

/-- The pixel-to-point conversion applied to the four components of a raw box
(`frankensteinv2.py` line 220, before the 2-decimal serialization rounding). -/
def bboxToPt (b : BBox) : BBox :=
  ⟨b.x * PX_TO_PT, b.y * PX_TO_PT, b.w * PX_TO_PT, b.h * PX_TO_PT⟩

/-- The serialized `bbox_pt` entry of a label record: each component of the
converted box rounded to 2 decimals. -/
def bboxPtSerialized (b : BBox) : BBox :=
  ⟨round2 (b.x * PX_TO_PT), round2 (b.y * PX_TO_PT),
   round2 (b.w * PX_TO_PT), round2 (b.h * PX_TO_PT)⟩

/-- Page record of the ReportLab scripts (`epf_k_form_synth.py`,
`epf_k_form_pillow.py`). -/
structure Page where
  width : ℚ
  height : ℚ

/-- `tl_to_rl(page, x, y, h) = (x, page.height - (y + h))`: top-left to
bottom-left origin conversion (`epf_k_form_synth.py` lines 34-39,
`epf_k_form_pillow.py` lines 29-31). -/
def tl_to_rl (page : Page) (x y h : ℚ) : ℚ × ℚ :=
  (x, page.height - (y + h))

/-! ### The Pillow text renderer (`epf_k_form_pillow.py`) -/

/-- `scale_factor = 4` in `draw_text_as_image`. -/
def scale_factor : ℚ := 4

/-- The approximate point-to-pixel factor `1.333` used by
`draw_text_as_image` (the code comment calls it "Approx pt to px
conversion"). -/
def pillowPtToPx : ℚ := 1333 / 1000

/-- `font_size_px = int(font_size_pt * 1.333 * scale_factor)`: Python `int()`
truncation, which is `⌊·⌋` for the positive sizes used. -/
def fontSizePx (fontSizePt : ℚ) : ℤ :=
  ⌊fontSizePt * pillowPtToPx * scale_factor⌋

/-- `pdf_w = img_w / (1.333 * scale_factor)`: the pixel-to-point direction of
the Pillow renderer. -/
def pillowPxToPt (px : ℚ) : ℚ :=
  px / (pillowPtToPx * scale_factor)

/-- Text alignment parameter of `draw_text_as_image`. -/
inductive Align : Type where
  | left
  | center
  | right

/-- Model of `draw_text_as_image`: `fontOk` is whether
`ImageFont.truetype(font_path, ...)` succeeds (on failure the function
returns `(x, y, 0, 0)`); `textWpx`/`textHpx` are the glyph extents
`right - left` / `bottom - top` reported by `textbbox` at scale 4.  The image
is padded by `int(10 * scale_factor) = 40` device pixels on each dimension,
converted back to points by dividing by `1.333 * scale_factor`, and the
returned box is `(x_final, y, pdf_w, pdf_h)` in top-left point coordinates. -/
def draw_text_as_image (fontOk : Bool) (x y : ℚ) (textWpx textHpx : ℕ)
    (align : Align) : BBox :=
  if fontOk then
    let imgW : ℚ := (textWpx : ℚ) + 40
    let imgH : ℚ := (textHpx : ℚ) + 40
    let pdfW := imgW / (pillowPtToPx * scale_factor)
    let pdfH := imgH / (pillowPtToPx * scale_factor)
    let xFinal :=
      match align with
      | .left => x
      | .center => x - pdfW / 2
      | .right => x - pdfW
    ⟨xFinal, y, pdfW, pdfH⟩
  else
    ⟨x, y, 0, 0⟩

/-! ### Run traces of `generate_dataset` (`frankensteinv2.py`, section 6)

The control flow of the main loop is modelled as an event trace.  Per sample
the code builds the HTML (this is where `font_face_css` raises
`FileNotFoundError` when a font file is missing — after the browser was
launched), loads it, waits for fonts, extracts labels, and writes the PDF,
PNG and JSON label file.  There is no try/except anywhere in the loop: any
exception aborts the whole run. -/

inductive Event : Type where
  | mkdirs
  | browserLaunch
  | setContent (sample : Nat)
  | fontsReady (sample : Nat)
  | extract (sample : Nat)
  | writePdf (sample : Nat)
  | writePng (sample : Nat)
  | writeJson (sample : Nat)
  | browserClose
  deriving DecidableEq

inductive GenError : Type where
  /-- `FileNotFoundError` raised by `font_face_css` while building the HTML of
  sample `sample`. -/
  | missingFont (sample : Nat)
  /-- an engine failure while rendering sample `sample`. -/
  | renderError (sample : Nat)
  deriving DecidableEq

/-- The per-sample loop of `generate_dataset`: `fontsOk` is whether all three
font files exist, `renderFails i` is whether the engine fails on sample `i`.
An exception (missing font, render failure) propagates: the loop stops and
the error escapes; only on normal completion is `browser.close()` reached. -/
def genLoop (fontsOk : Bool) (renderFails : Nat → Bool) :
    Nat → Nat → List Event × Option GenError
  | 0, _ => ([Event.browserClose], none)
  | remaining + 1, i =>
      if fontsOk = false then
        ([], some (GenError.missingFont i))
      else if renderFails i then
        ([Event.setContent i], some (GenError.renderError i))
      else
        let rest := genLoop fontsOk renderFails remaining (i + 1)
        ([Event.setContent i, Event.fontsReady i, Event.extract i,
          Event.writePdf i, Event.writePng i, Event.writeJson i] ++ rest.1,
         rest.2)

/-- Model of `generate_dataset(output_dir, font_dir, count)`: create the
output directories, launch the browser (one engine session), then run the
sample loop.  The configuration carries no random seed at all. -/
def generateDataset (fontsOk : Bool) (renderFails : Nat → Bool) (count : Nat) :
    List Event × Option GenError :=
  let loop := genLoop fontsOk renderFails count 0
  (Event.mkdirs :: Event.browserLaunch :: loop.1, loop.2)

/-- Number of engine sessions started in a trace (count of `browserLaunch`
events). -/
def sessionsStarted (trace : List Event) : Nat :=
  (trace.filter (fun e => e = Event.browserLaunch)).length

/-! ### Grapheme-cluster boundaries for the corpus scripts

A conservative classifier for the combining code points occurring in the
Sinhala/Tamil corpus: dependent vowel signs, viramas, anusvara/visarga and
the zero-width joiner.  A code-point cut whose successor is one of these
splits a grapheme cluster. -/

def isCombining (c : Char) : Bool :=
  c.toNat = 0x200D ||                                 -- zero-width joiner
  c.toNat = 0x0D82 || c.toNat = 0x0D83 ||             -- Sinhala anusvara, visarga
  c.toNat = 0x0DCA ||                                 -- Sinhala virama
  (0x0DCF ≤ c.toNat && c.toNat ≤ 0x0DDF) ||           -- Sinhala vowel signs
  c.toNat = 0x0DF2 || c.toNat = 0x0DF3 ||             -- Sinhala vowel signs
  (0x0BBE ≤ c.toNat && c.toNat ≤ 0x0BC2) ||           -- Tamil vowel signs
  (0x0BC6 ≤ c.toNat && c.toNat ≤ 0x0BC8) ||
  (0x0BCA ≤ c.toNat && c.toNat ≤ 0x0BCC) ||
  c.toNat = 0x0BCD ||                                 -- Tamil virama
  c.toNat = 0x0BD7

/-- `s` is a whole-grapheme truncation of `src`: it equals `src.take n` for
some cut point `n` that does not fall immediately before a combining mark
(cutting right before a combining mark separates the mark from its base
character, splitting the cluster). -/
def wholeGraphemeCut (s src : String) : Bool :=
  (List.range (src.length + 1)).any (fun n =>
    s == src.take n &&
    (n == src.length || !isCombining (src.toList.getD n ' ')))

/-! ### The earlier composer (`frankenstein.py`)

`frankenstein.py` shares the font handling and the extraction loop of the v2
script but has a different block library and page policy: a header block
first, then `range(1, randint(5, 7))` body blocks each chosen by
`random.choice` from `[block_paragraph, block_key_value, block_table,
block_key_value]` — and no signature block at all. -/

/-- Model of the v1 `get_random_text(length_multiplier)`: the base string
repeated, with no slicing (and no random draw). -/
def v1GetRandomText (lengthMultiplier : Nat) : String :=
  String.join (List.replicate lengthMultiplier textBase)

def v1BlockHeader (idn : String) (r : Rng) : Html × Rng :=
  let n := randint 1000 9999 r
  (.el ["layout-box", "header"] (some "header") (some idn)
    [.el [] none none [.txt (TEXT_SI.take 20 ++ "... (HEADER)")],
     .el [] none none [.txt ("ID: " ++ toString n.1)]], n.2)

def v1BlockParagraph (idn : String) (r : Rng) : Html × Rng :=
  let m := randint 2 5 r
  (.el ["layout-box", "paragraph"] (some "text_block") (some idn)
    [.txt (v1GetRandomText m.1)], m.2)

def v1BlockKeyValue (idn : String) (r : Rng) : Html × Rng :=
  (.el ["layout-box", "input_row"] (some "key_value_pair") (some idn)
    [.el [] none none
      [.el [] none none [.txt "සම්පූර්ණ නම"],
       .el [] none none [.txt "Full Name"]],
     .el [] none none []], r)

/-- One row of the v1 table: three fixed `Data r-c` cells (`range(3)`). -/
def v1TableRow (rowIdx : Nat) : Html :=
  .el [] none none
    [.el [] none none [.txt ("Data " ++ toString rowIdx ++ "-0")],
     .el [] none none [.txt ("Data " ++ toString rowIdx ++ "-1")],
     .el [] none none [.txt ("Data " ++ toString rowIdx ++ "-2")]]

def v1BlockTable (idn : String) (r : Rng) : Html × Rng :=
  let n := randint 2 4 r
  (.el ["layout-box", "table"] (some "table") (some idn)
    [.el [] none none ((List.range n.1).map v1TableRow)], n.2)

/-- The v1 block pool `[block_paragraph, block_key_value, block_table,
block_key_value]` (`block_key_value` appears twice, weighting the draw). -/
def v1BlockGenerators : List (String → Rng → Html × Rng) :=
  [v1BlockParagraph, v1BlockKeyValue, v1BlockTable, v1BlockKeyValue]

/-- The body loop of the v1 `build_random_page_html`. -/
def v1BuildBody : Nat → Nat → Rng → List Html × Rng
  | 0, _, r => ([], r)
  | count + 1, i, r =>
      let g := choice v1BlockGenerators v1BlockParagraph r
      let b := g.1 (toString i) g.2
      let rest := v1BuildBody count (i + 1) b.2
      (b.1 :: rest.1, rest.2)

/-- Model of the v1 `build_random_page_html` (composition part): a header
block, then `range(1, randint(5, 7))` (i.e. 4 to 6) randomly chosen body
blocks.  No signature block is ever appended. -/
def v1BuildPageBlocks (r : Rng) : List Html × Rng :=
  let hdr := v1BlockHeader "0" r
  let n := randint 5 7 hdr.2
  let body := v1BuildBody (n.1 - 1) 1 n.2
  (hdr.1 :: body.1, body.2)

/-- Whether a block carries the `data-label` tag `signature_area`, the tag a
signature block carries (`blockSignature` does; no v1 block generator emits
it). -/
def isSignatureBlock : Html → Bool
  | .el _ dl _ _ => dl == some "signature_area"
  | .txt _ => false


theorem labelsOf_txt (s : String) : labelsOf (.txt s) = [] := by
  simp [labelsOf]

theorem labelsOf_el (classes : List String) (dl di : Option String) (children : List Html) :
    labelsOf (.el classes dl di children) =
      (if "layout-box" ∈ classes then [(di, dl)] else []) ++ labelsOf.labelsList children := by
  simp [labelsOf]

theorem labelsList_nil : labelsOf.labelsList [] = [] := by
  simp [labelsOf.labelsList]

theorem labelsList_cons (h : Html) (t : List Html) :
    labelsOf.labelsList (h :: t) = labelsOf h ++ labelsOf.labelsList t := by
  simp [labelsOf.labelsList]

theorem labelsList_append (a b : List Html) :
    labelsOf.labelsList (a ++ b) = labelsOf.labelsList a ++ labelsOf.labelsList b := by
  induction a with
  | nil => simp [labelsList_nil]
  | cons h t ih => simp [labelsList_cons, ih]

theorem labelsOf_blockParagraph (idn : String) (r : Rng) :
    labelsOf (blockParagraph idn r).1 = [(some idn, some "text_block")] := by
  simp [blockParagraph, labelsOf_el, labelsList_cons, labelsList_nil, labelsOf_txt]

theorem labelsOf_blockInputField (idn : String) (r : Rng) :
    labelsOf (blockInputField idn r).1 = [(some idn, some "key_value")] := by
  simp [blockInputField, labelsOf_el, labelsList_cons, labelsList_nil, labelsOf_txt]

theorem labelsOf_checkboxItem (letter : String) (r : Rng) :
    labelsOf (checkboxItem letter r).1 = [] := by
  simp [checkboxItem, labelsOf_el, labelsList_cons, labelsList_nil, labelsOf_txt]

theorem labelsOf_blockCheckboxGroup (idn : String) (r : Rng) :
    labelsOf (blockCheckboxGroup idn r).1 = [(some idn, some "checkbox_group")] := by
  simp [blockCheckboxGroup, labelsOf_el, labelsList_cons, labelsList_nil,
    labelsOf_checkboxItem]

theorem labelsOf_blockHeader (idn : String) (r : Rng) :
    labelsOf (blockHeader idn r).1 = [(some idn, some "header")] := by
  simp [blockHeader, labelsOf_el, labelsList_cons, labelsList_nil, labelsOf_txt]

theorem labelsOf_blockSignature (idn : String) :
    labelsOf (blockSignature idn) = [(some idn, some "signature_area")] := by
  simp [blockSignature, labelsOf_el, labelsList_cons, labelsList_nil, labelsOf_txt]

theorem labelsOf_atomic (idBase : String) (r : Rng) :
    ∃ idn cls, labelsOf (getRandomAtomicBlock idBase r).1 = [(some idn, some cls)] := by
  unfold getRandomAtomicBlock choice
  have h4 : (Rng.next r).1 % atomicGenerators.length < 4 := by
    exact Nat.mod_lt _ (by simp [atomicGenerators])
  set k := (Rng.next r).1 % atomicGenerators.length with hk
  interval_cases k <;>
    simp [atomicGenerators, labelsOf_blockParagraph, labelsOf_blockInputField,
      labelsOf_blockCheckboxGroup]


theorem choice_mem {α : Type} (l : List α) (d : α) (r : Rng) (hl : l ≠ []) :
    (choice l d r).1 ∈ l := by
  unfold choice
  have h : (Rng.next r).1 % l.length < l.length :=
    Nat.mod_lt _ (List.length_pos.mpr hl)
  simp only [List.getD_eq_getElem l d h]
  exact List.getElem_mem h

theorem rowFullWidth_labels (idb : String) (r : Rng) :
    (labelsOf (rowFullWidth idb r).1).length = 1 := by
  obtain ⟨i, c, h⟩ := labelsOf_atomic idb r
  simp [rowFullWidth, h]

theorem rowTwoColumns_labels (idb : String) (r : Rng) :
    (labelsOf (rowTwoColumns idb r).1).length = 2 := by
  obtain ⟨i1, c1, h1⟩ := labelsOf_atomic (idb ++ "_L") r
  obtain ⟨i2, c2, h2⟩ :=
    labelsOf_atomic (idb ++ "_R") (getRandomAtomicBlock (idb ++ "_L") r).2
  simp [rowTwoColumns, labelsOf_el, labelsList_cons, labelsList_nil, h1, h2]

theorem rowThreeColumns_labels (idb : String) (r : Rng) :
    (labelsOf (rowThreeColumns idb r).1).length = 3 := by
  obtain ⟨i1, c1, h1⟩ := labelsOf_atomic (idb ++ "_1") r
  obtain ⟨i2, c2, h2⟩ :=
    labelsOf_atomic (idb ++ "_2") (getRandomAtomicBlock (idb ++ "_1") r).2
  obtain ⟨i3, c3, h3⟩ :=
    labelsOf_atomic (idb ++ "_3")
      (getRandomAtomicBlock (idb ++ "_2") (getRandomAtomicBlock (idb ++ "_1") r).2).2
  simp [rowThreeColumns, labelsOf_el, labelsList_cons, labelsList_nil, h1, h2, h3]

theorem strat_labels (strat : String → Rng → Html × Nat × Rng)
    (hs : strat ∈ layoutStrategies) (idb : String) (r : Rng) :
    (labelsOf (strat idb r).1).length = (strat idb r).2.1 ∧
      1 ≤ (strat idb r).2.1 ∧ (strat idb r).2.1 ≤ 3 := by
  simp only [layoutStrategies, List.mem_cons, List.not_mem_nil, or_false] at hs
  rcases hs with h | h | h | h | h <;> subst h
  · exact ⟨by rw [rowFullWidth_labels]; rfl, by norm_num [rowFullWidth]⟩
  · exact ⟨by rw [rowFullWidth_labels]; rfl, by norm_num [rowFullWidth]⟩
  · exact ⟨by rw [rowTwoColumns_labels]; rfl, by norm_num [rowTwoColumns]⟩
  · exact ⟨by rw [rowTwoColumns_labels]; rfl, by norm_num [rowTwoColumns]⟩
  · exact ⟨by rw [rowThreeColumns_labels]; rfl, by norm_num [rowThreeColumns]⟩

theorem buildRows_len (k i : Nat) (r : Rng) : (buildRows k i r).1.length = k := by
  induction k generalizing i r with
  | zero => simp [buildRows]
  | succ n ih => simp [buildRows, ih]

theorem buildRows_labels (k i : Nat) (r : Rng) :
    (labelsOf.labelsList (buildRows k i r).1).length = (buildRows k i r).2.1 ∧
      k ≤ (buildRows k i r).2.1 ∧ (buildRows k i r).2.1 ≤ 3 * k := by
  induction k generalizing i r with
  | zero => simp [buildRows, labelsList_nil]
  | succ n ih =>
      have hmem : (choice layoutStrategies rowFullWidth r).1 ∈ layoutStrategies :=
        choice_mem _ _ _ (by simp [layoutStrategies])
      obtain ⟨hlen, h1, h3⟩ :=
        strat_labels _ hmem (toString i) (choice layoutStrategies rowFullWidth r).2
      obtain ⟨ihlen, ih1, ih3⟩ := ih (i + 1)
        ((choice layoutStrategies rowFullWidth r).1 (toString i)
          (choice layoutStrategies rowFullWidth r).2).2.2
      refine ⟨?_, ?_, ?_⟩
      · simp [buildRows, labelsList_cons, hlen, ihlen]
      · simp only [buildRows]
        omega
      · simp only [buildRows]
        omega


theorem labelsList_length_sum (l : List Html) :
    (labelsOf.labelsList l).length = (l.map fun h => (labelsOf h).length).sum := by
  induction l with
  | nil => simp [labelsList_nil]
  | cons h t ih => simp [labelsList_cons, ih]

theorem buildRows_mem (k : Nat) :
    ∀ (i : Nat) (r : Rng), ∀ h ∈ (buildRows k i r).1,
      ∃ strat ∈ layoutStrategies, ∃ idb : String, ∃ r' : Rng, h = (strat idb r').1 := by
  induction k with
  | zero => intro i r h hh; simp [buildRows] at hh
  | succ n ih =>
      intro i r h hh
      simp only [buildRows, List.mem_cons] at hh
      rcases hh with hh | hh
      · exact ⟨_, choice_mem _ _ _ (by simp [layoutStrategies]), _, _, hh⟩
      · exact ih _ _ h hh

/-- Claim C1: for every ambient random state, the number of label records
extracted from the composed page (one per `.layout-box` DOM element, which is
also the number of records written to the JSON label file, the mapping being
one-to-one) equals the number of blocks placed during composition. -/
theorem C1_label_cardinality (r : Rng) :
    (extractLabels (buildRandomPage r)).length = (buildRandomPageBlocks r).2.1 := by
  obtain ⟨hlen, -, -⟩ :=
    buildRows_labels ((randint 6 9 (blockHeader "0" r).2).1 - 1) 1
      (randint 6 9 (blockHeader "0" r).2).2
  simp [extractLabels, buildRandomPage, buildRandomPageBlocks, labelsOf_el,
    labelsList_cons, labelsList_nil, labelsList_append, labelsOf_blockHeader,
    labelsOf_blockSignature, hlen]
  omega

theorem labelsOf_v1BlockHeader (idn : String) (r : Rng) :
    labelsOf (v1BlockHeader idn r).1 = [(some idn, some "header")] := by
  simp [v1BlockHeader, labelsOf_el, labelsList_cons, labelsList_nil, labelsOf_txt]

theorem v1Gen_mem_not_signature (gen : String → Rng → Html × Rng)
    (hg : gen ∈ v1BlockGenerators) (idn : String) (r : Rng) :
    isSignatureBlock (gen idn r).1 = false := by
  simp only [v1BlockGenerators, List.mem_cons, List.not_mem_nil, or_false] at hg
  rcases hg with h | h | h | h <;> subst h <;> rfl

theorem v1BuildBody_len (k i : Nat) (r : Rng) : (v1BuildBody k i r).1.length = k := by
  induction k generalizing i r with
  | zero => simp [v1BuildBody]
  | succ n ih => simp [v1BuildBody, ih]

theorem v1BuildBody_mem (k : Nat) :
    ∀ (i : Nat) (r : Rng), ∀ h ∈ (v1BuildBody k i r).1,
      ∃ gen ∈ v1BlockGenerators, ∃ idn : String, ∃ r' : Rng, h = (gen idn r').1 := by
  induction k with
  | zero => intro i r h hh; simp [v1BuildBody] at hh
  | succ n ih =>
      intro i r h hh
      simp only [v1BuildBody, List.mem_cons] at hh
      rcases hh with hh | hh
      · exact ⟨_, choice_mem _ _ _ (by simp [v1BlockGenerators]), _, _, hh⟩
      · exact ih _ _ h hh

/-- Claim C7 counterexample: the claim also cites the `frankenstein.py`
composer, and there it fails: the page composed under ambient stream 0 is a
header followed by four body blocks, and its last block is not a signature
block (no signature block exists in that script). -/
theorem C7_counterexample :
    (v1BuildPageBlocks rngZero).1.getLast?.map isSignatureBlock = some false ∧
    (v1BuildPageBlocks rngZero).1.length = 5 := by
  constructor <;> rfl

/-- Claim C7 amended: in `frankensteinv2.py` every composed page is the header
block, then 5 to 8 rows each built by a strategy chosen by weighted random
selection, then the signature block; in `frankenstein.py` the header block is
likewise first, but no signature block exists — the page ends after 4 to 6
body blocks each chosen by weighted random selection from the
paragraph / key-value / table pool, none of which is a signature block. -/
theorem C7_composition_policy_both_composers :
    (∀ r : Rng, ∃ rows : List Html,
      (buildRandomPageBlocks r).1 =
        (blockHeader "0" r).1 :: rows ++ [blockSignature "99"] ∧
      labelsOf (blockHeader "0" r).1 = [(some "0", some "header")] ∧
      labelsOf (blockSignature "99") = [(some "99", some "signature_area")] ∧
      isSignatureBlock (blockSignature "99") = true ∧
      5 ≤ rows.length ∧ rows.length ≤ 8 ∧
      ∀ h ∈ rows, ∃ strat ∈ layoutStrategies, ∃ idb : String, ∃ r' : Rng,
        h = (strat idb r').1) ∧
    (∀ r : Rng, ∃ body : List Html,
      (v1BuildPageBlocks r).1 = (v1BlockHeader "0" r).1 :: body ∧
      labelsOf (v1BlockHeader "0" r).1 = [(some "0", some "header")] ∧
      4 ≤ body.length ∧ body.length ≤ 6 ∧
      (∀ h ∈ body, ∃ gen ∈ v1BlockGenerators, ∃ idn : String, ∃ r' : Rng,
        h = (gen idn r').1) ∧
      ∀ h ∈ body, isSignatureBlock h = false) := by
  constructor
  · intro r
    refine ⟨(buildRows ((randint 6 9 (blockHeader "0" r).2).1 - 1) 1
        (randint 6 9 (blockHeader "0" r).2).2).1, ?_, labelsOf_blockHeader _ _,
      labelsOf_blockSignature _, rfl, ?_, ?_, buildRows_mem _ _ _⟩
    · simp [buildRandomPageBlocks]
    · rw [buildRows_len]
      simp only [randint]
      omega
    · rw [buildRows_len]
      have : (Rng.next (blockHeader "0" r).2).1 % 4 < 4 := Nat.mod_lt _ (by norm_num)
      simp only [randint]
      omega
  · intro r
    refine ⟨(v1BuildBody ((randint 5 7 (v1BlockHeader "0" r).2).1 - 1) 1
        (randint 5 7 (v1BlockHeader "0" r).2).2).1, ?_, labelsOf_v1BlockHeader _ _,
      ?_, ?_, v1BuildBody_mem _ _ _, ?_⟩
    · simp [v1BuildPageBlocks]
    · rw [v1BuildBody_len]
      simp only [randint]
      omega
    · rw [v1BuildBody_len]
      have : (Rng.next (v1BlockHeader "0" r).2).1 % 3 < 3 := Nat.mod_lt _ (by norm_num)
      simp only [randint]
      omega
    · intro h hh
      obtain ⟨gen, hg, idn, r', rfl⟩ := v1BuildBody_mem _ _ _ h hh
      exact v1Gen_mem_not_signature gen hg idn r'

/-- Claim C9: every composed page carries between 7 and 26 labeled blocks
inclusive: one header, between 5 and 8 rows each contributing one, two or
three labeled atomic blocks, and one signature. -/
theorem C9_block_count_bounds (r : Rng) :
    ∃ rowCounts : List Nat,
      5 ≤ rowCounts.length ∧ rowCounts.length ≤ 8 ∧
      (∀ c ∈ rowCounts, 1 ≤ c ∧ c ≤ 3) ∧
      (extractLabels (buildRandomPage r)).length = 1 + rowCounts.sum + 1 ∧
      7 ≤ (extractLabels (buildRandomPage r)).length ∧
      (extractLabels (buildRandomPage r)).length ≤ 26 := by
  set r2 := (randint 6 9 (blockHeader "0" r).2).2 with hr2
  set k := (randint 6 9 (blockHeader "0" r).2).1 - 1 with hk
  have hk5 : 5 ≤ k ∧ k ≤ 8 := by
    have : (Rng.next (blockHeader "0" r).2).1 % 4 < 4 := Nat.mod_lt _ (by norm_num)
    constructor <;> (simp only [hk, randint]; omega)
  have hlen : (extractLabels (buildRandomPage r)).length =
      1 + (labelsOf.labelsList (buildRows k 1 r2).1).length + 1 := by
    simp [extractLabels, buildRandomPage, buildRandomPageBlocks, labelsOf_el,
      labelsList_cons, labelsList_nil, labelsList_append, labelsOf_blockHeader,
      labelsOf_blockSignature, ← hr2, ← hk]
    omega
  refine ⟨(buildRows k 1 r2).1.map fun h => (labelsOf h).length, ?_, ?_, ?_, ?_, ?_, ?_⟩
  · rw [List.length_map, buildRows_len]; exact hk5.1
  · rw [List.length_map, buildRows_len]; exact hk5.2
  · intro c hc
    simp only [List.mem_map] at hc
    obtain ⟨h, hh, hcl⟩ := hc
    obtain ⟨strat, hsm, idb, r', rfl⟩ := buildRows_mem k 1 r2 h hh
    obtain ⟨he, h1, h3⟩ := strat_labels strat hsm idb r'
    omega
  · rw [hlen, labelsList_length_sum]
  · obtain ⟨he, h1, h3⟩ := buildRows_labels k 1 r2
    omega
  · obtain ⟨he, h1, h3⟩ := buildRows_labels k 1 r2
    omega


/-- Claim C2 counterexample: the Pillow renderer converts between points and
device pixels with the factor `1.333`, not exactly the inverse of
`PX_TO_PT = 0.75`: converting 12 pt at scale 4 with the exact inverse would
give 64 device pixels, the code gives 63; converting 5332 device pixels back
with exact 0.75 (descaled) would give 999.75 pt, the code gives 1000. -/
theorem C2_counterexample :
    (fontSizePx 12 : ℚ) ≠ 12 * PX_TO_PT⁻¹ * scale_factor ∧
    pillowPxToPt 5332 ≠ 5332 / scale_factor * PX_TO_PT := by
  constructor
  · have h : fontSizePx 12 = 63 := by
      unfold fontSizePx pillowPtToPx scale_factor
      norm_num
    rw [h]
    norm_num [PX_TO_PT, scale_factor]
  · unfold pillowPxToPt pillowPtToPx scale_factor PX_TO_PT
    norm_num

/-- Claim C2 amended: the browser-based scripts convert pixel to point by
multiplying x, y, width and height each by exactly `0.75`; the Pillow script
instead uses the approximation `1.333` for its point↔pixel conversions, whose
pixel-to-point factor `250/1333` is not the exact `0.75` (descaled to
`3/16`). -/
theorem C2_amended :
    (∀ b : BBox, bboxToPt b = ⟨b.x * (3 / 4), b.y * (3 / 4), b.w * (3 / 4), b.h * (3 / 4)⟩) ∧
    PX_TO_PT = 3 / 4 ∧
    (∀ px : ℚ, pillowPxToPt px = px * (250 / 1333)) ∧
    (250 / 1333 : ℚ) ≠ 3 / 4 / scale_factor := by
  have hP : PX_TO_PT = 3 / 4 := by norm_num [PX_TO_PT]
  refine ⟨fun b => ?_, hP, fun px => ?_, by norm_num [scale_factor]⟩
  · rw [bboxToPt, hP]
  · unfold pillowPxToPt pillowPtToPx scale_factor
    field_simp
    ring

/-- Claim C3: the top-left↔bottom-left origin conversion applied twice with the
same page height and box height is the exact identity on y, and the
pixel→point→pixel unit round-trip (with the 2-decimal serialization rounding
after the forward conversion) reproduces the original within 0.01 units. -/
theorem C3_roundtrip :
    (∀ (p : Page) (x y h : ℚ), (tl_to_rl p x (tl_to_rl p x y h).2 h).2 = y) ∧
    (∀ q : ℚ, |round2 (q * PX_TO_PT) / PX_TO_PT - q| ≤ 1 / 100) := by
  constructor
  · intro p x y h
    simp [tl_to_rl]
    ring
  · intro q
    have hP : PX_TO_PT = 3 / 4 := by norm_num [PX_TO_PT]
    rw [round2, hP]
    set u : ℚ := q * (3 / 4) * 100 with hu
    have h1 : |(round u : ℚ) - u| ≤ 1 / 2 := by
      rw [abs_sub_comm]
      exact abs_sub_round u
    have h2 : (round u : ℚ) / 100 / (3 / 4) - q = ((round u : ℚ) - u) * (1 / 75) := by
      rw [hu]
      ring
    rw [h2, abs_mul]
    have h3 : |(1 / 75 : ℚ)| = 1 / 75 := by norm_num
    rw [h3]
    nlinarith [h1, abs_nonneg ((round u : ℚ) - u)]

/-- Claim C4 (code defect): page composition is not a function of the
configuration — there is no seed input at all, and two runs that differ only
in the ambient global-random state produce different layout trees (here: 7
blocks versus 8). -/
theorem C4_unseeded_randomness :
    (buildRandomPageBlocks rngZero).1.length = 7 ∧
    (buildRandomPageBlocks rngOne).1.length = 8 ∧
    (buildRandomPageBlocks rngZero).1.length ≠ (buildRandomPageBlocks rngOne).1.length := by
  refine ⟨?_, ?_, ?_⟩ <;> decide


/-- Claim C5 counterexample: requesting generation with a missing font does
raise the font error on the first sample, but only after the browser engine
session has started — the trace contains one `browserLaunch`, not the zero
engine sessions the claim requires. -/
theorem C5_counterexample :
    (generateDataset false (fun _ => false) 1).2 = some (GenError.missingFont 0) ∧
    sessionsStarted (generateDataset false (fun _ => false) 1).1 ≠ 0 := by
  constructor
  · rfl
  · decide

/-- Claim C5 amended: with a required font missing, every run (of at least one
sample) fails with `FileNotFoundError` while building the first sample HTML:
before any content is loaded into the engine (no `setContent` event, so the
failure is never discovered in the middle of rendering a sample), but after
exactly one engine session has started, not before any session. -/
theorem C5_font_check_after_launch (renderFails : Nat → Bool) (count : Nat)
    (h : 0 < count) :
    (generateDataset false renderFails count).2 = some (GenError.missingFont 0) ∧
    sessionsStarted (generateDataset false renderFails count).1 = 1 ∧
    ∀ i, Event.setContent i ∉ (generateDataset false renderFails count).1 := by
  obtain ⟨k, rfl⟩ : ∃ k, count = k + 1 := ⟨count - 1, by omega⟩
  refine ⟨rfl, by simp [generateDataset, genLoop, sessionsStarted], ?_⟩
  intro i
  simp [generateDataset, genLoop]

theorem C5_font_check_after_launch_witness :
    0 < 1 ∧
    ((generateDataset false (fun _ => false) 1).2 = some (GenError.missingFont 0) ∧
      sessionsStarted (generateDataset false (fun _ => false) 1).1 = 1 ∧
      ∀ i, Event.setContent i ∉ (generateDataset false (fun _ => false) 1).1) :=
  ⟨by norm_num, C5_font_check_after_launch (fun _ => false) 1 (by norm_num)⟩

/-- Claim C6 counterexample: with two samples requested and a render failure
on sample 0, the run aborts with the render error and sample 1 is never
generated — no label file or PDF for it appears in the trace, contradicting
"generation continues with the remaining samples of the batch". -/
theorem C6_counterexample :
    (generateDataset true (fun i => i == 0) 2).2 = some (GenError.renderError 0) ∧
    Event.writeJson 1 ∉ (generateDataset true (fun i => i == 0) 2).1 ∧
    Event.writePdf 1 ∉ (generateDataset true (fun i => i == 0) 2).1 := by
  refine ⟨rfl, ?_, ?_⟩ <;> decide

/-- Helper for the amended C6: behaviour of the sample loop when the first
render failure happens at sample `i`. -/
theorem genLoop_first_failure (renderFails : Nat → Bool) :
    ∀ (remaining start i : Nat), start ≤ i → i < start + remaining →
      renderFails i = true → (∀ j, start ≤ j → j < i → renderFails j = false) →
      (genLoop true renderFails remaining start).2 = some (GenError.renderError i) ∧
      (∀ j, i ≤ j →
        Event.writeJson j ∉ (genLoop true renderFails remaining start).1 ∧
        Event.writePdf j ∉ (genLoop true renderFails remaining start).1) ∧
      ∀ j, start ≤ j → j < i → Event.writeJson j ∈ (genLoop true renderFails remaining start).1 := by
  intro remaining
  induction remaining with
  | zero => intro start i h1 h2; omega
  | succ n ih =>
      intro start i h1 h2 hfail hclean
      by_cases hs : renderFails start = true
      · have : i = start := by
          by_contra hne
          have : start < i := by omega
          have := hclean start (le_refl _) this
          simp [hs] at this
        subst this
        refine ⟨by simp [genLoop, hs], ?_, by intro j hj1 hj2; omega⟩
        intro j hj
        simp [genLoop, hs]
      · have hs' : renderFails start = false := by simpa using hs
        have hstart : start < i := by
          rcases Nat.lt_or_ge start i with h | h
          · exact h
          · have : i = start := by omega
            rw [this] at hfail
            simp [hfail] at hs'
        obtain ⟨ih1, ih2, ih3⟩ := ih (start + 1) i (by omega) (by omega) hfail
          (fun j hj1 hj2 => hclean j (by omega) hj2)
        refine ⟨?_, ?_, ?_⟩
        · simp [genLoop, hs', ih1]
        · intro j hj
          have hjs : j ≠ start := by omega
          obtain ⟨ihj, ihp⟩ := ih2 j hj
          constructor <;> simp [genLoop, hs', ihj, ihp, hjs]
        · intro j hj1 hj2
          rcases Nat.eq_or_lt_of_le hj1 with h | h
          · simp [genLoop, hs', ← h]
          · have := ih3 j (by omega) hj2
            simp [genLoop, hs', this]

/-- Claim C6 amended: a render failure on a sample does not stay confined to
that sample: the exception propagates (there is no per-sample catch), the run
aborts with `RenderError` for the failing sample, no artifact or label file is
written for the failing sample or any later sample, and only the samples
strictly before the failure were written. -/
theorem C6_render_failure_aborts_batch (renderFails : Nat → Bool) (count i : Nat)
    (hi : i < count) (hf : renderFails i = true)
    (hclean : ∀ j, j < i → renderFails j = false) :
    (generateDataset true renderFails count).2 = some (GenError.renderError i) ∧
    (∀ j, i ≤ j →
      Event.writeJson j ∉ (generateDataset true renderFails count).1 ∧
      Event.writePdf j ∉ (generateDataset true renderFails count).1) ∧
    ∀ j, j < i → Event.writeJson j ∈ (generateDataset true renderFails count).1 := by
  obtain ⟨h1, h2, h3⟩ := genLoop_first_failure renderFails count 0 i (by omega)
    (by omega) hf (fun j _ hj2 => hclean j hj2)
  refine ⟨h1, ?_, ?_⟩
  · intro j hj
    obtain ⟨hja, hjb⟩ := h2 j hj
    constructor <;> simp [generateDataset, hja, hjb]
  · intro j hj
    have := h3 j (by omega) hj
    simp [generateDataset, this]

theorem C6_render_failure_aborts_batch_witness :
    (0 < 2 ∧ (fun i => i == 0) 0 = true) ∧
    ((generateDataset true (fun i => i == 0) 2).2 = some (GenError.renderError 0) ∧
      (∀ j, 0 ≤ j →
        Event.writeJson j ∉ (generateDataset true (fun i => i == 0) 2).1 ∧
        Event.writePdf j ∉ (generateDataset true (fun i => i == 0) 2).1) ∧
      ∀ j, j < 0 → Event.writeJson j ∈ (generateDataset true (fun i => i == 0) 2).1) :=
  ⟨⟨by norm_num, by decide⟩,
    C6_render_failure_aborts_batch (fun i => i == 0) 2 0 (by norm_num) (by decide)
      (fun j hj => absurd hj (by omega))⟩


set_option maxRecDepth 40000 in
/-- Claim C8 counterexample: under ambient stream 0, `get_random_text`
truncates the corpus base at code point 50, whose successor is the Sinhala
virama U+0DCA (the cluster it belongs to continues past the cut), so the
produced text is not a whole-grapheme truncation of the corpus. -/
theorem C8_counterexample :
    wholeGraphemeCut (getRandomText 1 rngZero).1 textBase = false := by
  decide

/-- Claim C8 amended: `get_random_text` cuts the repeated corpus at a plain
code-point index drawn from `[50, 200]`, with no grapheme-boundary
adjustment; the checkbox-group option text further cuts the result at code
point 20.  Such cuts can and do split combining sequences. -/
theorem C8_codepoint_truncation (len : Nat) (r : Rng) :
    (∃ n, 50 ≤ n ∧ n ≤ 200 ∧
      (getRandomText len r).1 = (String.join (List.replicate len textBase)).take n) ∧
    isCombining (textBase.toList.getD 20 ' ') = true ∧
    isCombining (textBase.toList.getD 50 ' ') = true := by
  refine ⟨⟨50 + (Rng.next r).1 % 151, by omega, ?_, ?_⟩, by decide, by decide⟩
  · have : (Rng.next r).1 % 151 < 151 := Nat.mod_lt _ (by norm_num)
    omega
  · simp [getRandomText, randint]

/-- Claim C10: with a loadable font, the box returned by `draw_text_as_image`
has width and height exceeding the measured glyph extents (converted to
points at the drawing scale) by exactly `40 / (1.333 · 4) = 10 / 1.333 ≈ 7.5`
points, and both are strictly positive even when the glyph extents are
zero. -/
theorem C10_padding (x y : ℚ) (textWpx textHpx : ℕ) (align : Align) :
    (draw_text_as_image true x y textWpx textHpx align).w =
      (textWpx : ℚ) / (pillowPtToPx * scale_factor) + 10 / pillowPtToPx ∧
    (draw_text_as_image true x y textWpx textHpx align).h =
      (textHpx : ℚ) / (pillowPtToPx * scale_factor) + 10 / pillowPtToPx ∧
    0 < (draw_text_as_image true x y textWpx textHpx align).w ∧
    0 < (draw_text_as_image true x y textWpx textHpx align).h := by
  have hw : (draw_text_as_image true x y textWpx textHpx align).w =
      ((textWpx : ℚ) + 40) / (pillowPtToPx * scale_factor) := by
    cases align <;> rfl
  have hh : (draw_text_as_image true x y textWpx textHpx align).h =
      ((textHpx : ℚ) + 40) / (pillowPtToPx * scale_factor) := by
    cases align <;> rfl
  rw [hw, hh]
  unfold pillowPtToPx scale_factor
  refine ⟨by field_simp; ring, by field_simp; ring, by positivity, by positivity⟩

end SynthGen
